import Mathlib

/-
Verification development for the claudesidian web scraper core
(claudesidian/web/scraper.py): URL resolution (normalize_url),
the scrape orchestration state machine, and the browser lifecycle.

Python string primitives are modelled on the character-list view of
Lean strings; external collaborators (aiohttp probes, the browser) are
modelled as explicit oracles so that the control flow of the source is
the only thing under verification.
-/

namespace Claudesidian

/-- Model of Python str.startswith on character lists: the candidate
is a prefix of the string. Note that in Python every string starts
with the empty string. -/
def pyStartsWith (s p : String) : Bool := p.data.isPrefixOf s.data

/-- Model of Python str.endswith on character lists. -/
def pyEndsWith (s p : String) : Bool := p.data.isSuffixOf s.data

/-- Model of Python str.lower, character-wise lowering (ASCII range,
which covers all inputs exercised here). -/
def pyLower (s : String) : String := String.mk (s.data.map Char.toLower)

/-- Model of Python str.strip with no argument: remove leading and
trailing whitespace characters. -/
def pyStrip (s : String) : String :=
  String.mk
    (((s.data.dropWhile Char.isWhitespace).reverse.dropWhile Char.isWhitespace).reverse)

/-- Helper for the scheme-stripping regex of scraper.py line 103,
re.sub with pattern carets-dot-star-colon-slash-slash: the greedy
dot-star does not cross a newline, and the match is anchored at the
start, so the result is everything after the last colon-slash-slash
occurrence that is reachable without crossing a newline. Returns none
when the pattern does not match. -/
def afterLastScheme : List Char → Option (List Char)
  | [] => none
  | c :: cs =>
    if c = '\n' then none
    else
      match afterLastScheme cs with
      | some r => some r
      | none =>
        match c, cs with
        | ':', '/' :: '/' :: rest => some rest
        | _, _ => none

/-- Model of scraper.py line 103: remove any scheme marker that was
accidentally included, keeping only the remainder. -/
def stripScheme (s : String) : String :=
  match afterLastScheme s.data with
  | some r => String.mk r
  | none => s

/-- Split a character list on the dot character; used to model the
dotted-quad IPv4 regex of scraper.py line 107. -/
def splitOnDot : List Char → List (List Char)
  | [] => [[]]
  | c :: rest =>
    if c = '.' then [] :: splitOnDot rest
    else
      match splitOnDot rest with
      | g :: gs => (c :: g) :: gs
      | [] => [[c]]

/-- Model of the anchored dotted-quad IPv4 regex of scraper.py
line 107: four dot-separated groups of one to three digits. -/
def isIpv4 (s : String) : Bool :=
  let parts := splitOnDot s.data
  parts.length = 4 &&
    parts.all (fun p => decide (1 ≤ p.length) && decide (p.length ≤ 3) && p.all Char.isDigit)

/-- COMMON_PROTOCOLS of scraper.py line 34. -/
def commonProtocols : List String := ["https://", "http://"]

/-- COMMON_PREFIXES of scraper.py line 35; note it contains the empty
string. -/
def commonPrefixes : List String := ["www.", ""]

/-- COMMON_SUFFIXES of scraper.py lines 36-39. -/
def commonSuffixes : List String :=
  [".com", ".ai", ".org", ".net", ".io", ".co", ".edu", ".gov", ".uk", ".de", ".cn", ".jp"]

/-- Model of scraper.py lines 110-119: when the input ends in no known
suffix, one base candidate per suffix; otherwise the input is the sole
base candidate. -/
def baseCandidates (u : String) : List String :=
  if ! commonSuffixes.any (fun sfx => pyEndsWith u sfx) then
    commonSuffixes.map (fun sfx => if pyEndsWith u sfx then u else u ++ sfx)
  else [u]

/-- Model of scraper.py lines 121-127, the loop body over bases: bases
that start with no known prefix are expanded once per prefix, others
are kept as they are. -/
def expandBase (base : String) : List String :=
  if ! commonPrefixes.any (fun pfx => pyStartsWith base pfx) then
    commonPrefixes.map (fun pfx => pfx ++ base)
  else [base]

/-- Model of scraper.py lines 106-135: the final ordered candidate
list built from the cleaned input (an IP keeps only protocol variants;
other inputs go through suffix and prefix expansion first). -/
def urlCandidates (u : String) : List String :=
  let cands := if ! isIpv4 u then (baseCandidates u).flatMap expandBase else [u]
  cands.flatMap (fun c => commonProtocols.map (fun pr => pr ++ c))

/-- Model of the probe loop of scraper.py lines 138-145: try each
candidate in order with a HEAD request through the probe oracle, which
returns the final redirected URL on a status below 400 and none when
the request fails, raises, or returns an error status. The second
component records every candidate actually probed, in order. -/
def firstHitTrace (probe : String → Option String) : List String → Option String × List String
  | [] => (none, [])
  | c :: cs =>
    match probe c with
    | some u => (some u, [c])
    | none =>
      let r := firstHitTrace probe cs
      (r.1, c :: r.2)

/-- Model of normalize_url, scraper.py lines 86-148, instrumented with
the list of candidates probed: clean the input, return it at once when
it already carries a scheme, otherwise strip stray schemes, build the
candidate list, probe in order, and fall back deterministically when
every probe fails. -/
def normalizeUrlRun (probe : String → Option String) (url0 : String) : String × List String :=
  let url := pyLower (pyStrip url0)
  if pyStartsWith url "http://" || pyStartsWith url "https://" then (url, [])
  else
    let u := stripScheme url
    let t := firstHitTrace probe (urlCandidates u)
    match t.1 with
    | some r => (r, t.2)
    | none => ((if isIpv4 u then "https://" ++ u else "https://www." ++ u), t.2)

/-- Model of normalize_url, scraper.py lines 86-148: the returned URL. -/
def normalize_url (probe : String → Option String) (url0 : String) : String :=
  (normalizeUrlRun probe url0).1

/-- Model of the path component produced by urllib.parse.urlparse for
the URLs handled by scrape (scraper.py line 177): for a URL with an
http or https scheme, the path is what follows the authority up to any
query or fragment marker; otherwise everything up to such a marker is
the path. -/
def urlPath (u : String) : String :=
  if pyStartsWith u "http://" || pyStartsWith u "https://" then
    let rest := u.data.drop (if pyStartsWith u "https://" then 8 else 7)
    let afterHost := rest.dropWhile (fun c => c ≠ '/' && c ≠ '?' && c ≠ '#')
    String.mk (afterHost.takeWhile (fun c => c ≠ '?' && c ≠ '#'))
  else
    String.mk (u.data.takeWhile (fun c => c ≠ '?' && c ≠ '#'))

/-- Model of scraper.py line 178: the parsed path is empty or the bare
root slash. -/
def emptyOrRootPath (u : String) : Bool :=
  urlPath u = "" || urlPath u = "/"

/-- Model of scraper.py lines 176-183: the alternative URL formations
generated when the first navigation yields no response; nonempty only
for an empty or root path. -/
def alternativesFor (u : String) : List String :=
  if emptyOrRootPath u then [u ++ "/index.html", u ++ "/home", u ++ "/main"] else []

/-- Outcome of one page.goto call against the external browser:
a response with a status, a falsy missing response, or a raised
exception (the timeout kind of the automation library, or any other). -/
inductive NavResult where
  | noResponse
  | response (status : Nat)
  | raiseTimeout
  | raiseOther
  deriving DecidableEq, Repr

/-- Modelled from the spec: ScrapingError carries a message, the URL
that failed, and an optional HTTP status (its class lives in the
package init module, which is not part of the sources); timeout is the
timeout error of the automation library, and otherExc stands for any
other raised exception. -/
inductive PyExc where
  | scraping (msg : String) (url : String) (status : Option Nat)
  | timeout
  | otherExc
  deriving DecidableEq, Repr

/-- Modelled from the spec: the WebContent record populated by
extraction (its class lives in the package init module, which is not
part of the sources) — resolved URL, metadata, body content, images,
links and screenshots. -/
structure WebContent where
  url : String
  metadata : List (String × String)
  content : String
  images : List String
  links : List String
  screenshots : List String
  deriving DecidableEq, Repr

/-- Environment of one scrape call: the nav oracle gives the outcome
of page.goto per target URL; waitTimesOut tells whether the readiness
wait of the anti-bot phase exceeds its deadline; captchaFound and
cloudflareFound are the DOM probe outcomes of the challenge check;
pageUrl is the current page URL at challenge time; the page fields are
what extraction would read (the extraction helpers are not part of the
sources and are modelled from the spec as pure reads); imageIgnore and
screenshotEnabled reflect the merged configuration. Cookie-popup
dismissal is modelled from the spec as a best-effort step that never
raises. -/
structure ScrapeEnv where
  nav : String → NavResult
  waitTimesOut : Bool
  captchaFound : Bool
  cloudflareFound : Bool
  pageUrl : String
  pageMetadata : List (String × String)
  pageContent : String
  pageImages : List String
  pageLinks : List String
  pageScreenshots : List String
  imageIgnore : Bool
  screenshotEnabled : Bool

/-- Observable outcome of one scrape call: the returned content or the
propagated exception, the ordered list of page.goto targets, how many
pages the call opened and closed, and whether extraction ran. -/
structure ScrapeOut where
  result : Except PyExc WebContent
  gotos : List String
  pagesOpened : Nat
  pagesClosed : Nat
  extracted : Bool

/-- Model of the alternative-URL loop of scraper.py lines 185-194:
each alternative is navigated in order inside a bare try that swallows
any exception; the loop stops at the first truthy response, and the
response stays falsy otherwise. The second component lists the
alternatives actually attempted. -/
def altLoop (nav : String → NavResult) : List String → NavResult × List String
  | [] => (NavResult.noResponse, [])
  | a :: more =>
    match nav a with
    | NavResult.response s => (NavResult.response s, [a])
    | _ =>
      let r := altLoop nav more
      (r.1, a :: r.2)

/-- Model of the navigation phase of scraper.py lines 169-197: the
primary goto, then, when it yields no response, the alternative loop,
then the failed-to-load error when the response is still falsy. A
raised exception in the primary goto propagates. -/
def navPhase (env : ScrapeEnv) (u : String) : Except PyExc Nat × List String :=
  match env.nav u with
  | NavResult.response s => (Except.ok s, [u])
  | NavResult.raiseTimeout => (Except.error PyExc.timeout, [u])
  | NavResult.raiseOther => (Except.error PyExc.otherExc, [u])
  | NavResult.noResponse =>
    let r := altLoop env.nav (alternativesFor u)
    match r.1 with
    | NavResult.response s => (Except.ok s, u :: r.2)
    | _ => (Except.error (PyExc.scraping "Failed to load page" u none), u :: r.2)

/-- Model of the extraction phase of scraper.py lines 207-224: the
WebContent record as populated for the navigated URL, with images
handled only when image handling is not IGNORE and screenshots only
when enabled. -/
def mkWebContent (env : ScrapeEnv) (u : String) : WebContent :=
  { url := u
    metadata := env.pageMetadata
    content := env.pageContent
    images := if env.imageIgnore then [] else env.pageImages
    links := env.pageLinks
    screenshots := if env.screenshotEnabled then env.pageScreenshots else [] }

/-- Model of the try block of scrape, scraper.py lines 163-229: open a
page, navigate (with the alternative retry), check the status, run the
anti-bot phase (readiness wait, scrolling, cookie popups, challenge
check), extract, close the page, return. The page is closed only on
the successful path; every raising path leaves it open. -/
def scrapeTry (env : ScrapeEnv) (u : String) : ScrapeOut :=
  let nav := navPhase env u
  match nav.1 with
  | Except.error e =>
    { result := Except.error e, gotos := nav.2,
      pagesOpened := 1, pagesClosed := 0, extracted := false }
  | Except.ok s =>
    if s ≥ 400 then
      { result := Except.error (PyExc.scraping ("HTTP " ++ toString s) u (some s)),
        gotos := nav.2, pagesOpened := 1, pagesClosed := 0, extracted := false }
    else if env.waitTimesOut then
      { result := Except.error PyExc.timeout, gotos := nav.2,
        pagesOpened := 1, pagesClosed := 0, extracted := false }
    else if env.captchaFound then
      { result := Except.error (PyExc.scraping "CAPTCHA detected" env.pageUrl none),
        gotos := nav.2, pagesOpened := 1, pagesClosed := 0, extracted := false }
    else if env.cloudflareFound then
      { result := Except.error (PyExc.scraping "Cloudflare protection detected" env.pageUrl none),
        gotos := nav.2, pagesOpened := 1, pagesClosed := 0, extracted := false }
    else
      { result := Except.ok (mkWebContent env u), gotos := nav.2,
        pagesOpened := 1, pagesClosed := 1, extracted := true }

/-- Model of the except clause of scrape, scraper.py lines 231-234:
a timeout error of the automation library is mapped to the page-load
timeout ScrapingError carrying the normalized URL; every other
exception is re-raised unchanged. The clause closes no page. -/
def exceptClause (u : String) (r : Except PyExc WebContent) : Except PyExc WebContent :=
  match r with
  | Except.error PyExc.timeout => Except.error (PyExc.scraping "Page load timeout" u none)
  | r => r

/-- Model of scrape on an already-normalized URL, scraper.py
lines 163-234: the try body wrapped by the except clause. -/
def scrape (env : ScrapeEnv) (u : String) : ScrapeOut :=
  let t := scrapeTry env u
  { t with result := exceptClause u t.result }

/-- Model of the full scrape entry point, scraper.py lines 150-234:
normalize the input first, then run the orchestration on the
normalized URL. -/
def scrapeFull (env : ScrapeEnv) (probe : String → Option String) (url0 : String) : ScrapeOut :=
  scrape env (normalize_url probe url0)

/-- State of the WebScraper instance as far as the browser handle is
concerned: some when self.browser holds a live browser, none when the
attribute was never assigned or was cleared. -/
structure WebScraperState where
  browser : Option Unit
  deriving DecidableEq, Repr

/-- Model of WebScraper constructor, scraper.py lines 78-84: the
constructor invokes the async method setting up the browser without
awaiting it, so the coroutine body that would assign self.browser
never executes (and the automation module it references is never
imported); no browser handle is established. -/
def initScraper : WebScraperState := { browser := none }

/-- Model of close, scraper.py lines 382-386: when a browser handle is
present it is closed and the attribute cleared; otherwise nothing
happens. -/
def closeScraper (s : WebScraperState) : WebScraperState :=
  match s.browser with
  | some _ => { browser := none }
  | none => s

/-- Whether a scrape call can open its page: scrape begins with
self.browser.newPage (scraper.py line 165), which needs a live browser
handle. -/
def canOpenPage (s : WebScraperState) : Bool := s.browser.isSome

/-- Base demonstration environment: every navigation yields no
response, no challenge is present, extraction would read empty data. -/
def demoEnv : ScrapeEnv :=
  { nav := fun _ => NavResult.noResponse, waitTimesOut := false, captchaFound := false,
    cloudflareFound := false, pageUrl := "https://example.com/", pageMetadata := [],
    pageContent := "", pageImages := [], pageLinks := [], pageScreenshots := [],
    imageIgnore := true, screenshotEnabled := false }

/-- Demonstration environment where every navigation returns an HTTP
404 response. -/
def env404 : ScrapeEnv := { demoEnv with nav := fun _ => NavResult.response 404 }

/-- Demonstration environment where every navigation raises the
timeout error of the automation library. -/
def envTimeout : ScrapeEnv := { demoEnv with nav := fun _ => NavResult.raiseTimeout }

/-- Demonstration environment where navigation succeeds with status
200 but a CAPTCHA selector is present on the page. -/
def envChallenge : ScrapeEnv :=
  { demoEnv with nav := fun _ => NavResult.response 200, captchaFound := true }

/-- When the probe oracle fails on every candidate, the probe loop
returns no hit and records every candidate as probed. -/
theorem firstHitTrace_of_none (probe : String → Option String) (hp : ∀ c, probe c = none) :
    ∀ l : List String, firstHitTrace probe l = (none, l) := by
  intro l
  induction l with
  | nil => rfl
  | cons c cs ih => simp [firstHitTrace, hp c, ih]

/-- A hit of the probe loop comes from a probe success on one of the
candidates of the list. -/
theorem firstHitTrace_fst_some (probe : String → Option String) :
    ∀ (l : List String) (r : String),
      (firstHitTrace probe l).1 = some r → ∃ c ∈ l, probe c = some r := by
  intro l
  induction l with
  | nil => intro r h; simp [firstHitTrace] at h
  | cons c cs ih =>
    intro r h
    cases hpc : probe c with
    | some v =>
      refine ⟨c, by simp, ?_⟩
      rw [hpc]
      simp [firstHitTrace, hpc] at h
      rw [h]
    | none =>
      simp [firstHitTrace, hpc] at h
      obtain ⟨d, hd, hpd⟩ := ih r h
      exact ⟨d, by simp [hd], hpd⟩

/-- Extending a string on the right preserves every prefix it
satisfies in the sense of the Python startswith model. -/
theorem pyStartsWith_append_left (a b p : String) (h : pyStartsWith a p = true) :
    pyStartsWith (a ++ b) p = true := by
  unfold pyStartsWith at h ⊢
  rw [String.data_append]
  have h2 : p.data <+: a.data := List.isPrefixOf_iff_prefix.mp h
  have h3 : p.data <+: a.data ++ b.data := h2.trans ⟨b.data, rfl⟩
  exact List.isPrefixOf_iff_prefix.mpr h3

/-- Expanding a base over the known namespace of host markers keeps it
unchanged: since the empty string is one of the known markers and
every string starts with the empty string, the expansion branch of
scraper.py lines 123-125 is unreachable. -/
theorem expandBase_eq_singleton (base : String) : expandBase base = [base] := by
  have h0 : pyStartsWith base "" = true := by
    unfold pyStartsWith
    rw [show ("" : String).data = [] from rfl]
    cases base.data <;> rfl
  simp [expandBase, commonPrefixes, h0]

/-- Flat-mapping base expansion over a list leaves the list unchanged. -/
theorem flatMap_expandBase (xs : List String) : xs.flatMap expandBase = xs := by
  induction xs with
  | nil => rfl
  | cons b bs ih => simp [expandBase_eq_singleton, ih]

/-- Claim C1: scrape closes the page handle it opened on every exit
path, on success as well as when navigation, challenge check or
extraction raises. The code violates this: on the HTTP-error exit
(here a 404 response) the ScrapingError propagates while the page that
the call opened is never closed, so the open-page count stays one
above its pre-call value. -/
theorem scrape_http_error_leaks_page :
    (scrape env404 "https://example.com").pagesOpened = 1 ∧
    (scrape env404 "https://example.com").pagesClosed = 0 ∧
    (scrape env404 "https://example.com").result =
      Except.error (PyExc.scraping "HTTP 404" "https://example.com" (some 404)) :=
  ⟨rfl, rfl, rfl⟩

/-- Claim C2 counterexample: for input example the final candidate
list does not have length suffixes times known host markers times
protocols, and the probing order does not begin with the four entries
the claim states (no www variant is ever generated, because the empty
string is among the known host markers and every base starts with the
empty string). -/
theorem urlCandidates_example_refutes_claim :
    (urlCandidates "example").length ≠
      commonSuffixes.length * commonPrefixes.length * commonProtocols.length ∧
    (urlCandidates "example").take 4 ≠
      ["https://www.example.com", "https://example.com",
       "http://www.example.com", "http://example.com"] := by
  constructor
  · decide
  · decide

/-- Claim C2 as amended: for every non-IP input lacking a known
suffix, the final candidate list is the ordered expansion of suffixes
against protocols only — suffix-major, https before http, with no www
variants — and its length is the number of suffixes times the number
of protocols. -/
theorem urlCandidates_no_suffix (u : String)
    (hip : isIpv4 u = false)
    (hsfx : commonSuffixes.any (fun sfx => pyEndsWith u sfx) = false) :
    urlCandidates u =
      ["https://" ++ (u ++ ".com"), "http://" ++ (u ++ ".com"),
       "https://" ++ (u ++ ".ai"), "http://" ++ (u ++ ".ai"),
       "https://" ++ (u ++ ".org"), "http://" ++ (u ++ ".org"),
       "https://" ++ (u ++ ".net"), "http://" ++ (u ++ ".net"),
       "https://" ++ (u ++ ".io"), "http://" ++ (u ++ ".io"),
       "https://" ++ (u ++ ".co"), "http://" ++ (u ++ ".co"),
       "https://" ++ (u ++ ".edu"), "http://" ++ (u ++ ".edu"),
       "https://" ++ (u ++ ".gov"), "http://" ++ (u ++ ".gov"),
       "https://" ++ (u ++ ".uk"), "http://" ++ (u ++ ".uk"),
       "https://" ++ (u ++ ".de"), "http://" ++ (u ++ ".de"),
       "https://" ++ (u ++ ".cn"), "http://" ++ (u ++ ".cn"),
       "https://" ++ (u ++ ".jp"), "http://" ++ (u ++ ".jp")] ∧
    (urlCandidates u).length = commonSuffixes.length * commonProtocols.length := by
  have heach : ∀ sfx ∈ commonSuffixes, pyEndsWith u sfx = false := by
    intro sfx hs
    simpa using List.any_eq_false.mp hsfx sfx hs
  have hmap : commonSuffixes.map (fun sfx => if pyEndsWith u sfx then u else u ++ sfx)
      = commonSuffixes.map (fun sfx => u ++ sfx) :=
    List.map_congr_left (fun sfx hs => by simp [heach sfx hs])
  have hcands : urlCandidates u =
      (commonSuffixes.map (fun sfx => u ++ sfx)).flatMap
        (fun c => commonProtocols.map (fun pr => pr ++ c)) := by
    unfold urlCandidates baseCandidates
    rw [hip, hsfx]
    simp only [Bool.not_false, if_true, flatMap_expandBase, hmap]
  constructor
  · rw [hcands]
    simp [commonSuffixes, commonProtocols]
  · rw [hcands]
    simp [commonSuffixes, commonProtocols]

/-- Claim C2 witness: at input example the hypotheses hold, and the
amended candidate list and length follow by applying the amended
theorem. -/
theorem urlCandidates_no_suffix_witness :
    urlCandidates "example" =
      ["https://example.com", "http://example.com",
       "https://example.ai", "http://example.ai",
       "https://example.org", "http://example.org",
       "https://example.net", "http://example.net",
       "https://example.io", "http://example.io",
       "https://example.co", "http://example.co",
       "https://example.edu", "http://example.edu",
       "https://example.gov", "http://example.gov",
       "https://example.uk", "http://example.uk",
       "https://example.de", "http://example.de",
       "https://example.cn", "http://example.cn",
       "https://example.jp", "http://example.jp"] ∧
    (urlCandidates "example").length = commonSuffixes.length * commonProtocols.length := by
  have h := urlCandidates_no_suffix "example" (by decide) (by decide)
  exact ⟨h.1.trans (by decide), h.2⟩

/-- Claim C3: after scraper construction a live browser instance
exists and is usable by later scrape calls, while close tears it down.
The code violates the first half: the constructor never establishes a
browser handle (the async setup method is invoked without being
awaited), so a scrape call right after construction cannot open its
page, exactly as after close. -/
theorem scraper_construction_leaves_no_browser :
    initScraper.browser = none ∧ canOpenPage initScraper = false ∧
    canOpenPage (closeScraper initScraper) = false :=
  ⟨rfl, rfl, rfl⟩

/-- Claim C4 counterexample: an input that starts with https:// is not
returned unchanged — normalize_url lower-cases it first. -/
theorem normalize_url_changes_scheme_input :
    normalize_url (fun _ => none) "https://EXAMPLE.com" = "https://example.com" ∧
    normalize_url (fun _ => none) "https://EXAMPLE.com" ≠ "https://EXAMPLE.com" :=
  ⟨by decide, by decide⟩

/-- Claim C4 as amended: for every input whose stripped, lower-cased
form starts with http:// or https://, normalize_url returns that
stripped lower-cased form — equal to the input whenever the input is
already stripped and lower-case — and probes no candidate at all. -/
theorem normalize_url_scheme_branch (probe : String → Option String) (url : String)
    (h : (pyStartsWith (pyLower (pyStrip url)) "http://" ||
          pyStartsWith (pyLower (pyStrip url)) "https://") = true) :
    normalizeUrlRun probe url = (pyLower (pyStrip url), []) := by
  simp [normalizeUrlRun, h]

/-- Claim C4 witness: a scheme-bearing input on which the amended
theorem applies and evaluates to the expected pair. -/
theorem normalize_url_scheme_branch_witness :
    normalizeUrlRun (fun _ => none) "https://example.com" = ("https://example.com", []) :=
  (normalize_url_scheme_branch (fun _ => none) "https://example.com" (by decide)).trans
    (by decide)

/-- Claim C5: when navigation inside scrape raises the timeout signal
of the automation library, scrape raises ScrapingError with message
Page load timeout carrying the normalized URL instead of propagating
the raw timeout. -/
theorem scrape_timeout_mapped (env : ScrapeEnv) (probe : String → Option String)
    (url0 : String)
    (h : env.nav (normalize_url probe url0) = NavResult.raiseTimeout) :
    (scrapeFull env probe url0).result =
      Except.error (PyExc.scraping "Page load timeout" (normalize_url probe url0) none) := by
  unfold scrapeFull scrape scrapeTry navPhase
  simp [h, exceptClause]

/-- Claim C5 witness: in the environment where every navigation times
out, scraping an already-normalized URL yields the mapped page-load
timeout error carrying that URL. -/
theorem scrape_timeout_mapped_witness :
    (scrapeFull envTimeout (fun _ => none) "https://example.com").result =
      Except.error (PyExc.scraping "Page load timeout" "https://example.com" none) :=
  (scrape_timeout_mapped envTimeout (fun _ => none) "https://example.com" rfl).trans
    (by rfl)

/-- Claim C6: when every candidate probe fails — each per-candidate
failure being swallowed by the probe oracle, never propagated —
normalize_url still terminates and returns the deterministic fallback:
https scheme plus www marker on the cleaned input for a non-IP input,
https scheme alone for an IP. -/
theorem normalize_url_fallback (probe : String → Option String) (url : String)
    (hp : ∀ c, probe c = none)
    (hs : (pyStartsWith (pyLower (pyStrip url)) "http://" ||
           pyStartsWith (pyLower (pyStrip url)) "https://") = false) :
    normalize_url probe url =
      (if isIpv4 (stripScheme (pyLower (pyStrip url)))
       then "https://" ++ stripScheme (pyLower (pyStrip url))
       else "https://www." ++ stripScheme (pyLower (pyStrip url))) := by
  unfold normalize_url normalizeUrlRun
  simp [hs, firstHitTrace_of_none probe hp]

/-- Claim C6 witness: with a probe that always fails, input example
falls back to the www form under the https scheme. -/
theorem normalize_url_fallback_witness :
    normalize_url (fun _ => none) "example" = "https://www.example" :=
  (normalize_url_fallback (fun _ => none) "example" (fun _ => rfl) (by decide)).trans
    (by decide)

/-- Claim C7: when the primary navigation yields no response and the
resolved URL has an empty or root path, scrape retries exactly the
three alternatives index.html, home and main in that order and, when
all three also yield no response, raises the failed-to-load
ScrapingError; for a non-root path no alternative is generated and the
same error is raised at once. -/
theorem scrape_no_response_alternatives (env : ScrapeEnv) (u : String)
    (h : env.nav u = NavResult.noResponse) :
    (emptyOrRootPath u = true →
      env.nav (u ++ "/index.html") = NavResult.noResponse →
      env.nav (u ++ "/home") = NavResult.noResponse →
      env.nav (u ++ "/main") = NavResult.noResponse →
      (scrape env u).gotos = [u, u ++ "/index.html", u ++ "/home", u ++ "/main"] ∧
      (scrape env u).result =
        Except.error (PyExc.scraping "Failed to load page" u none)) ∧
    (emptyOrRootPath u = false →
      (scrape env u).gotos = [u] ∧
      (scrape env u).result =
        Except.error (PyExc.scraping "Failed to load page" u none)) := by
  constructor
  · intro hroot h1 h2 h3
    unfold scrape scrapeTry navPhase alternativesFor
    simp [h, hroot, altLoop, h1, h2, h3, exceptClause]
  · intro hroot
    unfold scrape scrapeTry navPhase alternativesFor
    simp [h, hroot, altLoop, exceptClause]

/-- Claim C7 witness: in the environment where every navigation yields
no response, a root-path URL is retried against exactly the three
documented alternatives in order and then fails with the
failed-to-load error. -/
theorem scrape_no_response_alternatives_witness :
    (scrape demoEnv "https://example.com").gotos =
      ["https://example.com", "https://example.com/index.html",
       "https://example.com/home", "https://example.com/main"] ∧
    (scrape demoEnv "https://example.com").result =
      Except.error (PyExc.scraping "Failed to load page" "https://example.com" none) := by
  have h := (scrape_no_response_alternatives demoEnv "https://example.com" rfl).1
    (by decide) rfl rfl rfl
  exact ⟨h.1.trans (by decide), h.2⟩

/-- Claim C8: when the navigation response carries a status of at
least 400, scrape raises ScrapingError with the HTTP-status message,
the navigated URL and that status, and attempts no alternative path —
the only navigation is the primary one. -/
theorem scrape_http_error_status (env : ScrapeEnv) (u : String) (s : Nat)
    (h : env.nav u = NavResult.response s) (hs : 400 ≤ s) :
    (scrape env u).result =
      Except.error (PyExc.scraping ("HTTP " ++ toString s) u (some s)) ∧
    (scrape env u).gotos = [u] := by
  unfold scrape scrapeTry navPhase
  simp [h, hs, exceptClause]

/-- Claim C8 witness: a 404 response on a non-root URL yields the
HTTP 404 error carrying status 404 with no alternative navigation. -/
theorem scrape_http_error_status_witness :
    (scrape env404 "https://example.com/deep").result =
      Except.error (PyExc.scraping "HTTP 404" "https://example.com/deep" (some 404)) ∧
    (scrape env404 "https://example.com/deep").gotos = ["https://example.com/deep"] := by
  have h := scrape_http_error_status env404 "https://example.com/deep" 404 rfl (by omega)
  exact ⟨h.1.trans (by rfl), h.2⟩

/-- Claim C9: when a CAPTCHA selector or the bot-mitigation
interstitial selector is present on the loaded page, scrape fails with
a ScrapingError carrying the current page URL and performs no content
extraction. -/
theorem scrape_challenge_no_extraction (env : ScrapeEnv) (u : String) (s : Nat)
    (h : env.nav u = NavResult.response s) (hs : s < 400)
    (hw : env.waitTimesOut = false)
    (hc : (env.captchaFound || env.cloudflareFound) = true) :
    (scrape env u).extracted = false ∧
    ((scrape env u).result =
        Except.error (PyExc.scraping "CAPTCHA detected" env.pageUrl none) ∨
     (scrape env u).result =
        Except.error (PyExc.scraping "Cloudflare protection detected" env.pageUrl none)) := by
  have hs' : ¬ 400 ≤ s := by omega
  unfold scrape scrapeTry navPhase
  cases hcap : env.captchaFound with
  | true => simp [h, hs', hw, hcap, exceptClause]
  | false =>
    have hcf : env.cloudflareFound = true := by simpa [hcap] using hc
    simp [h, hs', hw, hcap, hcf, exceptClause]

/-- Claim C9 witness: a page that loads with status 200 but shows a
CAPTCHA selector makes scrape fail with the CAPTCHA error carrying the
page URL, with extraction never run. -/
theorem scrape_challenge_no_extraction_witness :
    (scrape envChallenge "https://example.com").extracted = false ∧
    ((scrape envChallenge "https://example.com").result =
        Except.error (PyExc.scraping "CAPTCHA detected" envChallenge.pageUrl none) ∨
     (scrape envChallenge "https://example.com").result =
        Except.error
          (PyExc.scraping "Cloudflare protection detected" envChallenge.pageUrl none)) :=
  scrape_challenge_no_extraction envChallenge "https://example.com" 200 rfl (by omega)
    rfl rfl

/-- Claim C10: whatever the input, the URL normalize_url returns
starts with http:// or https:// — through the already-complete branch,
through the final redirected URL of the first successful probe
(assuming the probe oracle only ever reports scheme-qualified
redirected URLs, as HTTP clients do), or through the fallback. -/
theorem normalize_url_scheme_of_probe (probe : String → Option String)
    (hp : ∀ c r, probe c = some r →
      (pyStartsWith r "http://" || pyStartsWith r "https://") = true)
    (url : String) :
    (pyStartsWith (normalize_url probe url) "http://" ||
     pyStartsWith (normalize_url probe url) "https://") = true := by
  unfold normalize_url normalizeUrlRun
  by_cases hsch : (pyStartsWith (pyLower (pyStrip url)) "http://" ||
      pyStartsWith (pyLower (pyStrip url)) "https://") = true
  · rw [if_pos hsch]
    exact hsch
  · rw [if_neg hsch]
    cases hft : (firstHitTrace probe
        (urlCandidates (stripScheme (pyLower (pyStrip url))))).1 with
    | some r =>
      obtain ⟨c, _, hpc⟩ := firstHitTrace_fst_some probe _ r hft
      simp only [hft]
      exact hp c r hpc
    | none =>
      simp only [hft]
      by_cases hi : isIpv4 (stripScheme (pyLower (pyStrip url))) = true
      · rw [if_pos hi]
        have h2 : pyStartsWith ("https://" ++ stripScheme (pyLower (pyStrip url)))
            "https://" = true :=
          pyStartsWith_append_left "https://" _ "https://" (by decide)
        simp [h2]
      · rw [if_neg hi]
        have h2 : pyStartsWith ("https://www." ++ stripScheme (pyLower (pyStrip url)))
            "https://" = true :=
          pyStartsWith_append_left "https://www." _ "https://" (by decide)
        simp [h2]

/-- Claim C10 witness: with a probe that never succeeds, the result on
input example is scheme-qualified. -/
theorem normalize_url_scheme_of_probe_witness :
    (pyStartsWith (normalize_url (fun _ => none) "example") "http://" ||
     pyStartsWith (normalize_url (fun _ => none) "example") "https://") = true :=
  normalize_url_scheme_of_probe (fun _ => none) (fun _ _ h => nomatch h) "example"

end Claudesidian
